import Mathlib

/-!
Verification of the Pegasus Wealth Engine strategy-request service
(`pwe_api/main.py`): a shallow embedding of its fingerprinting, SQLite
persistence, deterministic fallback generation, post-processing and
similarity-lookup logic, with theorems settling the specified properties.
-/

namespace PWE

/-! ## MD5

`get_prompt_hash` in the source is `hashlib.md5(prompt.lower().encode()).hexdigest()`.
We embed MD5 itself, operating on lists of bytes (`Nat < 256`), with 32-bit
words represented as `Nat` reduced mod `2^32`.
-/

/-- The modulus for 32-bit words, 2^32. -/
def M32 : Nat := 4294967296

/-- Addition modulo 2^32. -/
def add32 (a b : Nat) : Nat := (a + b) % M32

/-- Bitwise complement on 32-bit words. -/
def not32 (a : Nat) : Nat := Nat.xor a 4294967295

/-- Left rotation of a 32-bit word by `s` bits. -/
def rotl32 (a s : Nat) : Nat := ((a <<< s) % M32) + ((a % M32) >>> (32 - s))

/-- MD5 round function F (rounds 0–15). -/
def mdF (b c d : Nat) : Nat := Nat.lor (Nat.land b c) (Nat.land (not32 b) d)

/-- MD5 round function G (rounds 16–31). -/
def mdG (b c d : Nat) : Nat := Nat.lor (Nat.land b d) (Nat.land c (not32 d))

/-- MD5 round function H (rounds 32–47). -/
def mdH (b c d : Nat) : Nat := Nat.xor b (Nat.xor c d)

/-- MD5 round function I (rounds 48–63). -/
def mdI (b c d : Nat) : Nat := Nat.xor c (Nat.lor b (not32 d))

/-- The 64 MD5 round constants `K[i] = floor(|sin(i+1)| * 2^32)`. -/
def mdK : List Nat :=
  [0xd76aa478, 0xe8c7b756, 0x242070db, 0xc1bdceee, 0xf57c0faf, 0x4787c62a, 0xa8304613, 0xfd469501,
   0x698098d8, 0x8b44f7af, 0xffff5bb1, 0x895cd7be, 0x6b901122, 0xfd987193, 0xa679438e, 0x49b40821,
   0xf61e2562, 0xc040b340, 0x265e5a51, 0xe9b6c7aa, 0xd62f105d, 0x02441453, 0xd8a1e681, 0xe7d3fbc8,
   0x21e1cde6, 0xc33707d6, 0xf4d50d87, 0x455a14ed, 0xa9e3e905, 0xfcefa3f8, 0x676f02d9, 0x8d2a4c8a,
   0xfffa3942, 0x8771f681, 0x6d9d6122, 0xfde5380c, 0xa4beea44, 0x4bdecfa9, 0xf6bb4b60, 0xbebfbc70,
   0x289b7ec6, 0xeaa127fa, 0xd4ef3085, 0x04881d05, 0xd9d4d039, 0xe6db99e5, 0x1fa27cf8, 0xc4ac5665,
   0xf4292244, 0x432aff97, 0xab9423a7, 0xfc93a039, 0x655b59c3, 0x8f0ccc92, 0xffeff47d, 0x85845dd1,
   0x6fa87e4f, 0xfe2ce6e0, 0xa3014314, 0x4e0811a1, 0xf7537e82, 0xbd3af235, 0x2ad7d2bb, 0xeb86d391]

/-- The 64 MD5 per-round left-rotation amounts. -/
def mdS : List Nat :=
  [7, 12, 17, 22, 7, 12, 17, 22, 7, 12, 17, 22, 7, 12, 17, 22,
   5, 9, 14, 20, 5, 9, 14, 20, 5, 9, 14, 20, 5, 9, 14, 20,
   4, 11, 16, 23, 4, 11, 16, 23, 4, 11, 16, 23, 4, 11, 16, 23,
   6, 10, 15, 21, 6, 10, 15, 21, 6, 10, 15, 21, 6, 10, 15, 21]

/-- One MD5 round: `i` is the round index, `m` the 16 message words,
`(a, b, c, d)` the working state. -/
def mdRound (m : List Nat) (st : Nat × Nat × Nat × Nat) (i : Nat) :
    Nat × Nat × Nat × Nat :=
  let (a, b, c, d) := st
  let f :=
    if i < 16 then mdF b c d
    else if i < 32 then mdG b c d
    else if i < 48 then mdH b c d
    else mdI b c d
  let g :=
    if i < 16 then i
    else if i < 32 then (5 * i + 1) % 16
    else if i < 48 then (3 * i + 5) % 16
    else (7 * i) % 16
  let tmp := add32 (add32 (add32 a f) (mdK.getD i 0)) (m.getD g 0)
  (d, add32 b (rotl32 tmp (mdS.getD i 0)), b, c)

/-- Decode a 64-byte chunk into 16 little-endian 32-bit words. -/
def chunkWords (chunk : List Nat) : List Nat :=
  (List.range 16).map fun j =>
    chunk.getD (4 * j) 0 + 256 * chunk.getD (4 * j + 1) 0 +
      65536 * chunk.getD (4 * j + 2) 0 + 16777216 * chunk.getD (4 * j + 3) 0

/-- Process one 64-byte chunk, updating the 4-word digest state. -/
def mdCompress (st : Nat × Nat × Nat × Nat) (chunk : List Nat) :
    Nat × Nat × Nat × Nat :=
  let m := chunkWords chunk
  let (a, b, c, d) := (List.range 64).foldl (mdRound m) st
  (add32 st.1 a, add32 st.2.1 b, add32 st.2.2.1 c, add32 st.2.2.2 d)

/-- Helper for `chunks64`: `acc` holds the current chunk reversed, `k` its
length. Structural recursion on the remaining bytes, so it reduces in the
kernel. -/
def chunksAux (acc : List Nat) (k : Nat) : List Nat → List (List Nat)
  | [] => if acc.isEmpty then [] else [acc.reverse]
  | b :: rest =>
      if k = 63 then (b :: acc).reverse :: chunksAux [] 0 rest
      else chunksAux (b :: acc) (k + 1) rest

/-- Split a byte list into 64-byte chunks. -/
def chunks64 (l : List Nat) : List (List Nat) := chunksAux [] 0 l

/-- The `k` little-endian bytes of `x`. -/
def leBytes (k x : Nat) : List Nat :=
  (List.range k).map fun i => (x / 256 ^ i) % 256

/-- MD5 padding: append `0x80`, zero-pad to 56 mod 64, then the 8-byte
little-endian bit length. -/
def mdPad (msg : List Nat) : List Nat :=
  let n := msg.length
  let zeros := (56 + 64 - (n + 1) % 64) % 64
  msg ++ [128] ++ List.replicate zeros 0 ++ leBytes 8 ((8 * n) % (2 ^ 64))

/-- Hexadecimal digit characters. -/
def hexDigit (n : Nat) : Char :=
  if n < 10 then Char.ofNat (48 + n) else Char.ofNat (87 + n % 16)

/-- Lowercase hex rendering of one byte (two digits). -/
def byteHex (b : Nat) : List Char := [hexDigit (b / 16), hexDigit (b % 16)]

/-- The MD5 digest of a byte list, rendered as the usual 32-character
lowercase hex string (little-endian word output order). -/
def md5Hex (msg : List Nat) : String :=
  let (a, b, c, d) := (chunks64 (mdPad msg)).foldl mdCompress
    (0x67452301, 0xefcdab89, 0x98badcfe, 0x10325476)
  ⟨(leBytes 4 a ++ leBytes 4 b ++ leBytes 4 c ++ leBytes 4 d).foldr
    (fun byte acc => byteHex byte ++ acc) []⟩

/-- UTF-8 encoding of one character, as bytes. -/
def utf8Bytes (c : Char) : List Nat :=
  let n := c.toNat
  if n < 128 then [n]
  else if n < 2048 then [192 + n / 64, 128 + n % 64]
  else if n < 65536 then [224 + n / 4096, 128 + (n / 64) % 64, 128 + n % 64]
  else [240 + n / 262144, 128 + (n / 4096) % 64, 128 + (n / 64) % 64, 128 + n % 64]

/-- UTF-8 encoding of a string (Python's `str.encode()`). -/
def strBytes (s : String) : List Nat :=
  s.data.foldr (fun c acc => utf8Bytes c ++ acc) []

/-- Python's `str.lower`, modelled charwise with `Char.toLower` (the two agree
on ASCII text, which is all the fixed keyword sets and markers use). -/
def pyLower (s : String) : String := ⟨s.data.map Char.toLower⟩

/-- Function `get_prompt_hash` (main.py:259): `hashlib.md5(prompt.lower().encode()).hexdigest()`. -/
def get_prompt_hash (prompt : String) : String :=
  md5Hex (strBytes (pyLower prompt))

/-! ## Persistence store

The `conversations` table (main.py:47–57): `id INTEGER PRIMARY KEY AUTOINCREMENT`,
`prompt_hash TEXT UNIQUE`, `prompt`, `response`, `timestamp`,
`success_score INTEGER DEFAULT 0`, `earnings REAL DEFAULT 0.0`.
Wall-clock timestamps are abstracted as monotone `Nat` values; `REAL` is
modelled exactly as `ℚ` (feedback earnings are only stored and compared, never
computed with, so rounding never matters for the claims).
-/

/-- One row of the `conversations` table. -/
structure Row where
  id : Nat
  prompt_hash : String
  prompt : String
  response : String
  timestamp : Nat
  success_score : Int
  earnings : ℚ
deriving DecidableEq

/-- The `conversations` table plus its `AUTOINCREMENT` counter (the next id,
one larger than any id ever used). -/
structure DB where
  rows : List Row
  nextId : Nat
deriving DecidableEq

/-- A fresh database: no rows, `AUTOINCREMENT` starts at 1. -/
def DB.empty : DB := ⟨[], 1⟩

/-- The stored rows carrying a given prompt hash. -/
def rowsFor (db : DB) (h : String) : List Row :=
  db.rows.filter fun r => r.prompt_hash = h

/-- Statement `INSERT OR REPLACE INTO conversations (prompt_hash, prompt, response,
timestamp) VALUES (?,?,?,?)` (main.py:272–276): on a `UNIQUE(prompt_hash)`
conflict SQLite deletes the conflicting row and inserts the new one, which
receives a fresh `AUTOINCREMENT` id; the unnamed columns take their defaults.
Returns the updated database and `cursor.lastrowid`. -/
def dbUpsert (db : DB) (prompt response : String) (now : Nat) : DB × Nat :=
  (⟨db.rows.filter (fun r => r.prompt_hash ≠ get_prompt_hash prompt) ++
      [⟨db.nextId, get_prompt_hash prompt, prompt, response, now, 0, 0⟩],
    db.nextId + 1⟩,
   db.nextId)

/-- Whether the SQLite store is reachable: `connect/execute/commit` either all
succeed or raise (modelled as one outcome, the spec's "store unreachable"). -/
inductive StoreOutcome where
  | ok : StoreOutcome
  | unreachable : StoreOutcome
deriving DecidableEq

/-- The `try` body of `save_conversation` (main.py:265–282): upsert and return
the new row id, or raise. -/
def save_conversation_try (st : StoreOutcome) (now : Nat) (db : DB)
    (prompt response : String) : Except String (DB × Nat) :=
  match st with
  | .unreachable => .error "sqlite3.OperationalError"
  | .ok => .ok (dbUpsert db prompt response now)

/-- Function `save_conversation` (main.py:263–286): the broad `except` turns any store
failure into the fallback id `"temp_" + str(datetime.now().timestamp())`
(time rendered abstractly via `toString`); on success it returns
`str(cursor.lastrowid)`. It never raises to its caller. -/
def save_conversation (st : StoreOutcome) (now : Nat) (db : DB)
    (prompt response : String) : DB × String :=
  match save_conversation_try st now db prompt response with
  | .ok (db2, rid) => (db2, toString rid)
  | .error _ => (db, "temp_" ++ toString now)

/-- A sequence of successful upserts (prompt, response, time). -/
def upsertAll (db : DB) (ops : List (String × String × Nat)) : DB :=
  ops.foldl (fun d op => (dbUpsert d op.1 op.2.1 op.2.2).1) db

/-- Python whitespace (`str.split`/`str.strip` default set, ASCII part). -/
def pyIsSpace (c : Char) : Bool :=
  c = ' ' || c = '\t' || c = '\n' || c = '\r' || c.toNat = 11 || c.toNat = 12

/-- Trim Python whitespace from both ends of a character list. -/
def pyStripList (cs : List Char) : List Char :=
  ((cs.dropWhile pyIsSpace).reverse.dropWhile pyIsSpace).reverse

/-- Decimal digits to the `Nat` they denote. -/
def digitsToNat (ds : List Char) : Nat :=
  ds.foldl (fun a c => 10 * a + (c.toNat - 48)) 0

/-- Python `int(s)`: optional surrounding whitespace, optional sign, at least
one ASCII digit. (Unicode digits and `_` digit separators, which CPython also
accepts, are not modelled; no claim exercises them.) Returns `none` where
`int()` raises `ValueError`. -/
def pyIntParse (s : String) : Option Int :=
  match pyStripList s.data with
  | [] => none
  | c :: cs =>
    let core := if c = '-' || c = '+' then cs else c :: cs
    let sign : Int := if c = '-' then -1 else 1
    if core ≠ [] ∧ core.all Char.isDigit then some (sign * digitsToNat core)
    else none

/-- The JSON object returned by a successful `/v1/feedback` call. -/
structure FeedbackResult where
  status : String
  strategy_id : String
deriving DecidableEq

/-- The literal success status string of `/v1/feedback` (main.py:487). -/
def feedback_success_status : String := "✅ Feedback submitted successfully"

/-- Function `submit_feedback` (main.py:471–491): `UPDATE conversations SET
success_score = ?, earnings = ? WHERE id = int(strategy_id)`. A row-less match
updates nothing and still returns the success payload; a non-integer
`strategy_id` makes `int()` raise, which the broad `except` converts to an
`HTTPException(500)` (modelled as `.error`). -/
def submit_feedback (db : DB) (strategy_id : String) (success_score : Int)
    (earnings : ℚ) : Except String (DB × FeedbackResult) :=
  match pyIntParse strategy_id with
  | none => .error "HTTP 500: Error submitting feedback"
  | some sid =>
    .ok (⟨db.rows.map fun r =>
            if (r.id : Int) = sid then
              { r with success_score := success_score, earnings := earnings }
            else r,
          db.nextId⟩,
         ⟨feedback_success_status, strategy_id⟩)

/-! ## Generation engine

`AIEngine.generate_money_strategy` / `AIEngine.generate_fallback_strategy`
(main.py:114–234). The external text-generation pipeline is modelled as an
optional oracle function plus a flag for the call raising; everything on the
fallback path is transcribed literally from the source.
-/

/-- Whether `pat` is a prefix of `cs` (charwise). -/
def isPrefixList : List Char → List Char → Bool
  | [], _ => true
  | _ :: _, [] => false
  | a :: as, b :: bs => a == b && isPrefixList as bs

/-- Python's substring operator `pat in s`, on character lists. -/
def isSubList (needle hay : List Char) : Bool :=
  match hay with
  | [] => isPrefixList needle []
  | _ :: rest => isPrefixList needle hay || isSubList needle rest

/-- Python `word in s` for strings. -/
def strContains (s word : String) : Bool := isSubList word.data s.data

/-- Python `any(word in s for word in words)`. -/
def containsAny (s : String) (words : List String) : Bool :=
  words.any fun w => strContains s w

/-- The `strategies` dict entry for `"freelance"` (main.py:159–167). -/
def strategy_freelance : String :=
  "\n1. Create profiles on Upwork, Fiverr, and Freelancer\n2. Identify your core skills (writing, design, programming, etc.)\n3. Start with competitive pricing to build reviews\n4. Focus on quick turnaround projects initially\n5. Gradually increase rates as you build reputation\n6. Aim for $20-50/hour within first month\n7. Scale by offering package deals and retainer clients\n"

/-- The `strategies` dict entry for `"online"` (main.py:168–176). -/
def strategy_online : String :=
  "\n1. Choose a profitable niche (health, finance, tech)\n2. Create valuable content (blog, YouTube, social media)\n3. Build an email list of potential customers\n4. Develop digital products (courses, ebooks, tools)\n5. Use affiliate marketing for passive income\n6. Monetize through ads, sponsorships, and partnerships\n7. Scale with automation and outsourcing\n"

/-- The `strategies` dict entry for `"ecommerce"` (main.py:177–185). -/
def strategy_ecommerce : String :=
  "\n1. Research trending products with low competition\n2. Find reliable suppliers (Alibaba, local manufacturers)\n3. Create an online store (Shopify, Amazon FBA)\n4. Optimize product listings with SEO\n5. Run targeted social media ads\n6. Focus on customer service and reviews\n7. Expand product line based on successful items\n"

/-- The `strategies` dict entry for `"investment"` (main.py:186–194). -/
def strategy_investment : String :=
  "\n1. Start with index funds for stable growth\n2. Learn about dividend stocks for passive income\n3. Consider REITs for real estate exposure\n4. Use dollar-cost averaging for consistent investing\n5. Keep emergency fund of 3-6 months expenses\n6. Diversify across asset classes and sectors\n7. Reinvest profits to compound returns\n"

/-- Lookup in the `strategies` dict; the classifier only ever produces the
four keys, so the final branch is unreachable. -/
def strategyFor (category : String) : String :=
  if category = "freelance" then strategy_freelance
  else if category = "online" then strategy_online
  else if category = "ecommerce" then strategy_ecommerce
  else if category = "investment" then strategy_investment
  else ""

/-- The keyword classifier inside `generate_fallback_strategy`
(main.py:198–208): four fixed keyword sets tested in priority order against
the lowercased prompt, defaulting to `"online"`. -/
def fallbackCategory (prompt : String) : String :=
  let pl := pyLower prompt
  if containsAny pl ["freelance", "gig", "service"] then "freelance"
  else if containsAny pl ["online", "digital", "internet"] then "online"
  else if containsAny pl ["sell", "product", "ecommerce"] then "ecommerce"
  else if containsAny pl ["invest", "stock", "crypto"] then "investment"
  else "online"

/-- The fixed header of the customized fallback output (echoes the prompt). -/
def fallbackHeader (prompt : String) : String :=
  "\n**Money-Making Strategy for: " ++ prompt ++ "**\n\n"

/-- The fixed quick-start/timeline footer of the customized fallback output
(main.py:218–231). -/
def fallbackFooter : String :=
  "\n\n**Quick Start Actions:**\n1. Set up necessary accounts today\n2. Complete profile/setup within 24 hours\n3. Launch first offering within 48 hours\n4. Track daily progress and earnings\n5. Optimize based on results weekly\n\n**Expected Timeline:**\n- Week 1: Setup and first attempts ($0-50)\n- Week 2-4: Build momentum ($50-200/week)\n- Month 2-3: Scale operations ($200-500/week)\n- Month 4+: Full optimization ($500+/week)\n\nRemember: Success requires consistent action and adaptation!\n"

/-- Method `AIEngine.generate_fallback_strategy` (main.py:156–234): classify, fetch
the category's 7-step template, wrap it in the fixed header and footer. -/
def generate_fallback_strategy (prompt : String) : String :=
  fallbackHeader prompt ++ strategyFor (fallbackCategory prompt) ++ fallbackFooter

/-- The `enhanced_prompt` f-string of `generate_money_strategy`
(main.py:118–129). -/
def enhanced_prompt (prompt : String) : String :=
  "\nAs an expert financial strategist and entrepreneur, provide a detailed, actionable money-making strategy for: \"" ++ prompt ++ "\"\n\nConsider these factors:\n1. Timeline and realistic expectations\n2. Required skills and resources\n3. Step-by-step action plan\n4. Potential earnings and ROI\n5. Risk assessment and mitigation\n6. Scalability options\n\nStrategy:"

/-- Drop everything up to and including the first occurrence of `sep`;
`none` if `sep` does not occur. -/
def dropThroughFirst (sep : List Char) : List Char → Option (List Char)
  | [] => none
  | c :: rest =>
      if isPrefixList sep (c :: rest) then some ((c :: rest).drop sep.length)
      else dropThroughFirst sep rest

/-- The last segment of Python's `s.split(sep)` (i.e. `split(sep)[-1]`),
fuelled by the text length. -/
def lastSegmentAux (sep : List Char) : Nat → List Char → List Char
  | 0, cs => cs
  | fuel + 1, cs =>
      match dropThroughFirst sep cs with
      | none => cs
      | some rest => lastSegmentAux sep fuel rest

/-- Python `generated_text.split("Strategy:")[-1]` as used on the primary path. -/
def lastSegment (sep : List Char) (cs : List Char) : List Char :=
  lastSegmentAux sep cs.length cs

/-- The state of the process-global `AIEngine` singleton, as visible to one
request: whether the generation pipeline loaded (`generator`, with the
external model's answer modelled as an oracle from input text to generated
text) and whether the in-flight generation call raises. -/
structure EngineState where
  generator : Option (String → String)
  generatorRaises : Bool

/-- Method `AIEngine.generate_money_strategy` (main.py:114–154): primary path through
the pipeline with the `"Strategy:"`-suffix extraction and `strip()`; any
exception, or an unloaded model, falls back to
`generate_fallback_strategy`. -/
def generate_money_strategy (eng : EngineState) (prompt : String) : String :=
  match eng.generator with
  | some g =>
      if eng.generatorRaises then generate_fallback_strategy prompt
      else ⟨pyStripList (lastSegment "Strategy:".data (g (enhanced_prompt prompt)).data)⟩
  | none => generate_fallback_strategy prompt

/-! ## Post-processing

`extract_suggested_actions` (main.py:323–336) and `estimate_earnings`
(main.py:338–358).
-/

/-- Python `s.split('\n')`, on character lists. -/
def splitOnChar (sep : Char) : List Char → List (List Char)
  | [] => [[]]
  | c :: rest =>
      if c = sep then [] :: splitOnChar sep rest
      else
        match splitOnChar sep rest with
        | [] => [[c]]
        | l :: ls => (c :: l) :: ls

/-- The marker set of `extract_suggested_actions`:
`['1.', '2.', '3.', '4.', '5.', '-', '•']`. -/
def action_markers : List String := ["1.", "2.", "3.", "4.", "5.", "-", "•"]

/-- Python `line.startswith(...)` against any action marker. -/
def startsWithMarker (line : List Char) : Bool :=
  action_markers.any fun m => isPrefixList m.data line

/-- Python `line.lstrip('123456789.-• ').strip()`: drop leading characters from the
marker set, then trim whitespace. -/
def cleanAction (line : List Char) : List Char :=
  pyStripList (line.dropWhile fun c => "123456789.-• ".data.contains c)

/-- The qualifying action a (raw) line contributes, if any: trim, check the
marker, clean, keep only non-empty text longer than 10 characters. -/
def actionOfLine (raw : List Char) : Option String :=
  let line := pyStripList raw
  if startsWithMarker line then
    let action := cleanAction line
    if !action.isEmpty && action.length > 10 then some ⟨action⟩ else none
  else none

/-- Function `extract_suggested_actions` (main.py:323–336): loop over the lines
appending qualifying actions, then return `actions[:5]`. -/
def extract_suggested_actions (strategy : String) : List String :=
  let actions := (splitOnChar '\n' strategy.data).foldl
    (fun acc raw =>
      match actionOfLine raw with
      | some a => acc ++ [a]
      | none => acc)
    []
  actions.take 5

/-- The `(?:,\d{3})*` part of the dollar-amount regex: greedily consume
comma-plus-three-digit groups, returning them and the rest. -/
def parseGroups : List Char → List Char × List Char
  | ',' :: a :: b :: c :: rest =>
      if a.isDigit && b.isDigit && c.isDigit then
        let (g, r) := parseGroups rest
        (',' :: a :: b :: c :: g, r)
      else ([], ',' :: a :: b :: c :: rest)
  | cs => ([], cs)

/-- The `(?:\.\d{2})?` part: an optional dot-plus-two-digit cents suffix. -/
def parseCents : List Char → List Char
  | '.' :: a :: b :: _ => if a.isDigit && b.isDigit then ['.', a, b] else []
  | _ => []

/-- Match `\d+(?:,\d{3})*(?:\.\d{2})?` at the head of `cs` (the capture group
of the regex, after a `$`). The regex pieces cannot backtrack into each other
(`,` and `.` are not digits), so greedy parsing is exact. -/
def parseAmount (cs : List Char) : Option (List Char) :=
  let ds := cs.takeWhile Char.isDigit
  if ds.isEmpty then none
  else
    let (gs, rest2) := parseGroups (cs.drop ds.length)
    some (ds ++ gs ++ parseCents rest2)

/-- The first match of `re.findall(r'\$(\d+(?:,\d{3})*(?:\.\d{2})?)', prompt)`:
scan left to right for a `$` followed by a digit. -/
def findFirstAmount : List Char → Option (List Char)
  | [] => none
  | c :: rest =>
      if c = '$' then
        match parseAmount rest with
        | some a => some a
        | none => findFirstAmount rest
      else findFirstAmount rest

/-- Function `estimate_earnings` (main.py:338–358). The `strategy` argument is unused
by the source body, which keys everything off the prompt. -/
def estimate_earnings (prompt strategy : String) : String :=
  let prompt_lower := pyLower prompt
  match findFirstAmount prompt.data with
  | some amt =>
      "Target: $" ++ String.mk (amt.filter fun c => c != ',') ++ " (as specified)"
  | none =>
      if containsAny prompt_lower ["day", "today", "quickly"] then
        "$50-200 (short-term)"
      else if containsAny prompt_lower ["week", "weekly"] then
        "$200-1000 (weekly potential)"
      else if containsAny prompt_lower ["month", "monthly"] then
        "$1000-5000 (monthly potential)"
      else "$100-500 (typical range)"

/-- The pre-cap confidence of `chat_completions` (main.py:397–399):
`0.8 if ai_engine.model else 0.6`, plus `0.1` when similar strategies were
found. Python float arithmetic is modelled exactly over `ℚ`; every reachable
value is far from the `0.95` cap, so float rounding cannot change any
comparison made with it. -/
def confidence_raw (modelLoaded similarFound : Bool) : ℚ :=
  (if modelLoaded then 0.8 else 0.6) + (if similarFound then 0.1 else 0)

/-! ## Similarity lookup

`get_similar_strategies` (main.py:288–321) interpolates the first five
lowercased prompt tokens into `LOWER(prompt) LIKE '%token%'` conditions joined
by `OR`, then takes the five most recent matches. The SQL fragment semantics
(`LIKE` wildcards, the syntax error raised by an empty `WHERE` clause or by an
unescaped quote inside a pattern) are embedded below; SQLite's `LOWER` is
ASCII-only, exactly like `Char.toLower`, and since both operands are already
lowercased, `LIKE`'s ASCII case-folding coincides with plain character
equality. (A token containing a doubled `''` would re-enter SQL as an escaped
quote; no claim exercises that, and it is conservatively treated as the syntax
error the lone-quote case produces.)
-/

/-- Python `str.split()` with no separator: split on whitespace runs,
discarding empty tokens. `cur` accumulates the current word reversed. -/
def pySplitAux (cur : List Char) : List Char → List String
  | [] => if cur.isEmpty then [] else [⟨cur.reverse⟩]
  | c :: rest =>
      if pyIsSpace c then
        if cur.isEmpty then pySplitAux [] rest
        else ⟨cur.reverse⟩ :: pySplitAux [] rest
      else pySplitAux (c :: cur) rest

/-- Python `s.split()`. -/
def pySplit (s : String) : List String := pySplitAux [] s.data

/-- Does `f` accept some suffix of the list (including itself and `[]`)? -/
def anySuffix (f : List Char → Bool) : List Char → Bool
  | [] => f []
  | c :: rest => f (c :: rest) || anySuffix f rest

/-- SQL `LIKE` pattern matching: `%` matches any sequence, `_` any single
character, anything else itself. -/
def likeMatch : List Char → List Char → Bool
  | [], s => s.isEmpty
  | p :: ps, s =>
      if p = '%' then anySuffix (likeMatch ps) s
      else if p = '_' then
        match s with
        | [] => false
        | _ :: s2 => likeMatch ps s2
      else
        match s with
        | [] => false
        | c :: s2 => p == c && likeMatch ps s2

/-- The single-quote character, which terminates a SQL string literal. -/
def sqlQuote : Char := Char.ofNat 39

/-- One interpolated condition `LOWER(prompt) LIKE '%token%'` applied to a
stored row. -/
def likeCondition (token : String) (r : Row) : Bool :=
  likeMatch ('%' :: (token.data ++ ['%'])) (pyLower r.prompt).data

/-- Recency order on stored rows (`ORDER BY timestamp DESC`). -/
def byRecency (a b : Row) : Prop := b.timestamp ≤ a.timestamp

instance : DecidableRel byRecency := fun a b => Nat.decLe b.timestamp a.timestamp

instance : IsTotal Row byRecency := ⟨fun a b => (Nat.le_total a.timestamp b.timestamp).symm⟩

instance : IsTrans Row byRecency := ⟨fun _ _ _ hab hbc => Nat.le_trans hbc hab⟩

/-- Function `get_similar_strategies` (main.py:288–321). An empty token list builds the
invalid query `... WHERE  ORDER BY ...`, and a token containing a quote breaks
the pattern literal; in both cases `cursor.execute` raises and the broad
`except` returns `[]`. Otherwise: the five most recent rows satisfying any of
the interpolated `LIKE` conditions. -/
def get_similar_strategies (db : DB) (prompt : String) : List Row :=
  let tokens := (pySplit (pyLower prompt)).take 5
  if tokens.isEmpty || tokens.any (fun t => t.data.contains sqlQuote) then []
  else
    (((db.rows.insertionSort byRecency).filter
        fun r => tokens.any fun t => likeCondition t r).take 5)

/-! ## Request orchestrator

`chat_completions` (main.py:371–415), assembling one `/v1/chat/completions`
response.
-/

/-- The `ChatResponse` pydantic model (main.py:245–251); `confidence` is
modelled over `ℚ`, the timestamp abstractly. -/
structure ChatResponse where
  response : String
  strategy_id : String
  confidence : ℚ
  suggested_actions : List String
  estimated_earnings : String
  timestamp : Nat
deriving DecidableEq

/-- The numbered `"{i}. Previous approach: {prompt[:100]}...\n"` lines of the
similar-strategy enhancement (main.py:384–385), numbering from `i`. -/
def previousNotes (i : Nat) : List Row → String
  | [] => ""
  | r :: rest =>
      toString i ++ ". Previous approach: " ++ String.mk (r.prompt.data.take 100) ++
        "...\n" ++ previousNotes (i + 1) rest

/-- The enhancement block appended when similar strategies were found
(main.py:382–385). -/
def enhancementNote (similar : List Row) : String :=
  "\n\n**📊 Based on " ++ toString similar.length ++
    " similar queries, here are additional insights:**\n" ++
    previousNotes 1 (similar.take 2)

/-- Function `chat_completions` (main.py:371–415): lookup similar strategies, generate,
enhance, persist, post-process, and assemble the response. `ai_engine.model`
and `ai_engine.generator` are `None` together (main.py:107–112), so model
availability for the confidence base is `eng.generator.isSome`. -/
def chat_completions (eng : EngineState) (st : StoreOutcome) (now : Nat)
    (db : DB) (prompt : String) : DB × ChatResponse :=
  let similar := get_similar_strategies db prompt
  let generated := generate_money_strategy eng prompt
  let strategy :=
    if similar.isEmpty then generated else generated ++ enhancementNote similar
  let saved := save_conversation st now db prompt strategy
  let conf := confidence_raw eng.generator.isSome (!similar.isEmpty)
  (saved.1,
   { response := strategy
     strategy_id := saved.2
     confidence := min conf 0.95
     suggested_actions := extract_suggested_actions strategy
     estimated_earnings := estimate_earnings prompt strategy
     timestamp := now })

/-! ## Concrete sample data for witnesses and counterexamples -/

/-- A stored exchange used by concrete instantiations. -/
def sampleRow : Row :=
  { id := 1, prompt_hash := "hash1", prompt := "stored prompt",
    response := "stored response", timestamp := 0, success_score := 0,
    earnings := 0 }

/-- A one-row database used by concrete instantiations. -/
def sampleDB : DB := ⟨[sampleRow], 2⟩

/-- A stored exchange whose prompt `"a x b"` does not contain the text
`"a%b"`, yet matches the interpolated pattern `LIKE '%a%b%'`. -/
def wildcardRow : Row :=
  { id := 1, prompt_hash := "h", prompt := "a x b", response := "resp",
    timestamp := 10, success_score := 0, earnings := 0 }

/-- A one-row database exhibiting the `LIKE`-wildcard mismatch. -/
def wildcardDB : DB := ⟨[wildcardRow], 2⟩

/-- An engine state with no loaded pipeline (fallback mode). -/
def engineDown : EngineState := ⟨none, false⟩

/-- An engine state whose pipeline is loaded but whose in-flight generation
call raises: the primary generative path does not succeed, yet
`ai_engine.model` is set. -/
def engineRaising : EngineState := ⟨some fun _ => "ignored", true⟩

/-- Another engine state with no loaded pipeline, differing in the raising
flag, to instantiate run-independence. -/
def engineDown2 : EngineState := ⟨none, true⟩

/-- The seven-numbered-lines input of the `extract_suggested_actions`
example. -/
def sevenNumberedLines : String :=
  "1. First action item here\n2. Second action item here\n3. Third action item here\n4. Fourth action item here\n5. Fifth action item here\n6. Sixth action item here\n7. Seventh action item here"

/-! ## Helper lemmas -/

/-- Updating rows whose id is absent from a list leaves it unchanged. -/
theorem map_feedback_untouched (l : List Row) (sid sc : Int) (e : ℚ)
    (h : ∀ r ∈ l, (r.id : Int) ≠ sid) :
    (l.map fun r => if (r.id : Int) = sid then
        { r with success_score := sc, earnings := e } else r) = l := by
  induction l with
  | nil => rfl
  | cons a t ih =>
    have ha : (a.id : Int) ≠ sid := h a (List.mem_cons_self a t)
    have ht : ∀ r ∈ t, (r.id : Int) ≠ sid := fun r hr =>
      h r (List.mem_cons_of_mem a hr)
    simp only [List.map_cons, if_neg ha, ih ht]

/-! ## Claim theorems -/

/-- C10: `estimate_earnings` never reads its strategy-text argument; the
result is determined by the prompt alone. -/
theorem C10_estimate_earnings_ignores_strategy (p s1 s2 : String) :
    estimate_earnings p s1 = estimate_earnings p s2 := rfl

/-- C9: `save_conversation` never raises to its caller: when the store write
fails it returns the database unchanged together with the time-derived
`"temp_"`-prefixed fallback identifier, and when the write succeeds it
returns the stored row's fresh id rendered as a string, with the row
present in the store. -/
theorem C9_save_conversation_never_fails (db : DB) (p r : String) (t : Nat) :
    save_conversation .unreachable t db p r = (db, "temp_" ++ toString t) ∧
    (save_conversation .ok t db p r).2 = toString db.nextId ∧
    (⟨db.nextId, get_prompt_hash p, p, r, t, 0, 0⟩ : Row) ∈
      (save_conversation .ok t db p r).1.rows := by
  refine ⟨rfl, rfl, ?_⟩
  simp [save_conversation, save_conversation_try, dbUpsert]

/-- C3: the deterministic fallback generator is a pure function of the prompt
text: any two engine states on the fallback path produce identical output,
which decomposes as the fixed header, the 7-step category body, and the fixed
footer. -/
theorem C3_fallback_deterministic (e1 e2 : EngineState) (p : String)
    (h1 : e1.generator = none) (h2 : e2.generator = none) :
    generate_money_strategy e1 p = generate_money_strategy e2 p ∧
    generate_money_strategy e1 p = generate_fallback_strategy p ∧
    generate_fallback_strategy p =
      fallbackHeader p ++ strategyFor (fallbackCategory p) ++ fallbackFooter := by
  simp [generate_money_strategy, h1, h2, generate_fallback_strategy]

/-- Witness for C3 at two concrete fallback-mode engine states. -/
theorem C3_witness :
    generate_money_strategy engineDown "grow my savings" =
      generate_money_strategy engineDown2 "grow my savings" :=
  (C3_fallback_deterministic engineDown engineDown2 "grow my savings" rfl rfl).1

/-- C4: the fallback classifier assigns exactly one of the four categories by
testing the keyword sets in priority order freelance, online, ecommerce,
investment, defaulting to online, with the three example prompts classified
as specified. -/
theorem C4_fallback_category_priority :
    (∀ p : String,
      fallbackCategory p = "freelance" ∨ fallbackCategory p = "online" ∨
        fallbackCategory p = "ecommerce" ∨ fallbackCategory p = "investment") ∧
    (∀ p : String,
      containsAny (pyLower p) ["freelance", "gig", "service"] = true →
      fallbackCategory p = "freelance") ∧
    (∀ p : String,
      containsAny (pyLower p) ["freelance", "gig", "service"] = false →
      containsAny (pyLower p) ["online", "digital", "internet"] = true →
      fallbackCategory p = "online") ∧
    (∀ p : String,
      containsAny (pyLower p) ["freelance", "gig", "service"] = false →
      containsAny (pyLower p) ["online", "digital", "internet"] = false →
      containsAny (pyLower p) ["sell", "product", "ecommerce"] = true →
      fallbackCategory p = "ecommerce") ∧
    (∀ p : String,
      containsAny (pyLower p) ["freelance", "gig", "service"] = false →
      containsAny (pyLower p) ["online", "digital", "internet"] = false →
      containsAny (pyLower p) ["sell", "product", "ecommerce"] = false →
      containsAny (pyLower p) ["invest", "stock", "crypto"] = true →
      fallbackCategory p = "investment") ∧
    (∀ p : String,
      containsAny (pyLower p) ["freelance", "gig", "service"] = false →
      containsAny (pyLower p) ["online", "digital", "internet"] = false →
      containsAny (pyLower p) ["sell", "product", "ecommerce"] = false →
      containsAny (pyLower p) ["invest", "stock", "crypto"] = false →
      fallbackCategory p = "online") ∧
    fallbackCategory "I want to freelance write articles" = "freelance" ∧
    fallbackCategory "invest in crypto" = "investment" ∧
    fallbackCategory "random unrelated text" = "online" := by
  refine ⟨?_, ?_, ?_, ?_, ?_, ?_, by decide, by decide, by decide⟩
  · intro p
    simp only [fallbackCategory]
    split_ifs <;> simp
  · intro p h1
    simp [fallbackCategory, h1]
  · intro p h1 h2
    simp [fallbackCategory, h1, h2]
  · intro p h1 h2 h3
    simp [fallbackCategory, h1, h2, h3]
  · intro p h1 h2 h3 h4
    simp [fallbackCategory, h1, h2, h3, h4]
  · intro p h1 h2 h3 h4
    simp [fallbackCategory, h1, h2, h3, h4]

/-- Witness for C4, discharging the keyword hypotheses at concrete prompts. -/
theorem C4_witness :
    fallbackCategory "offer a gig service" = "freelance" ∧
    fallbackCategory "boring words" = "online" :=
  ⟨(C4_fallback_category_priority).2.1 "offer a gig service" (by decide),
   (C4_fallback_category_priority).2.2.2.2.2.1 "boring words"
     (by decide) (by decide) (by decide) (by decide)⟩

/-- C2 counterexample: the system's own `"temp_"`-prefixed fallback
identifiers match no stored row, yet feedback on one does not return the
success status — `int()` raises and the handler converts it to an HTTP 500
error. -/
theorem C2_counterexample :
    DB.empty.rows = [] ∧
    submit_feedback DB.empty "temp_1" 5 0 =
      Except.error "HTTP 500: Error submitting feedback" :=
  ⟨rfl, rfl⟩

/-- C2 (amended): submitting feedback with an integer-formatted `strategy_id`
matching no stored row updates zero rows — every stored exchange is left
unchanged — and still returns the success status rather than a NotFound
condition. -/
theorem C2_unknown_id_feedback (db : DB) (s : String) (sid score : Int)
    (e : ℚ) (hparse : pyIntParse s = some sid)
    (hnone : ∀ r ∈ db.rows, (r.id : Int) ≠ sid) :
    submit_feedback db s score e =
      Except.ok (db, ⟨feedback_success_status, s⟩) := by
  simp only [submit_feedback, hparse]
  rw [map_feedback_untouched db.rows sid score e hnone]

/-- Witness for C2 on a one-row store and the unknown integer id 99. -/
theorem C2_witness :
    submit_feedback sampleDB "99" 5 (3 / 2) =
      Except.ok (sampleDB, ⟨feedback_success_status, "99"⟩) :=
  C2_unknown_id_feedback sampleDB "99" 99 5 (3 / 2) (by decide) (by decide)

/-- C5: `estimate_earnings` returns the first dollar-amount literal of the
prompt in the "as specified" format whenever one occurs (taking precedence
over temporal keywords), and otherwise exactly one of the four fixed literal
strings chosen by temporal keywords in the order day/today/quickly, week(ly),
month(ly), default; with the two example prompts as specified. -/
theorem C5_estimate_earnings_spec :
    (∀ (p s : String) (amt : List Char), findFirstAmount p.data = some amt →
      estimate_earnings p s =
        "Target: $" ++ String.mk (amt.filter fun c => c != ',') ++
          " (as specified)") ∧
    (∀ p s : String, findFirstAmount p.data = none →
      estimate_earnings p s =
        (if containsAny (pyLower p) ["day", "today", "quickly"] then
          "$50-200 (short-term)"
        else if containsAny (pyLower p) ["week", "weekly"] then
          "$200-1000 (weekly potential)"
        else if containsAny (pyLower p) ["month", "monthly"] then
          "$1000-5000 (monthly potential)"
        else "$100-500 (typical range)") ∧
      estimate_earnings p s ∈
        ["$50-200 (short-term)", "$200-1000 (weekly potential)",
         "$1000-5000 (monthly potential)", "$100-500 (typical range)"]) ∧
    (∀ s : String, estimate_earnings "Earn me $1,500 today" s =
      "Target: $1500 (as specified)") ∧
    (∀ s : String, estimate_earnings "Help me earn money this week" s =
      "$200-1000 (weekly potential)") := by
  refine ⟨?_, ?_, fun s => rfl, fun s => rfl⟩
  · intro p s amt h
    simp [estimate_earnings, h]
  · intro p s h
    refine ⟨by simp [estimate_earnings, h], ?_⟩
    simp only [estimate_earnings, h]
    split_ifs <;> simp

/-- Witness for C5: the dollar-amount branch applied at the example prompt. -/
theorem C5_witness :
    estimate_earnings "Earn me $1,500 today" "some strategy" =
      "Target: $" ++ String.mk ("1,500".data.filter fun c => c != ',') ++
        " (as specified)" :=
  C5_estimate_earnings_spec.1 "Earn me $1,500 today" "some strategy"
    "1,500".data (by decide)

/-- The action-collecting loop is the filterMap of `actionOfLine`. -/
theorem foldl_actions_eq (ls : List (List Char)) (acc : List String) :
    ls.foldl (fun acc raw =>
      match actionOfLine raw with
      | some a => acc ++ [a]
      | none => acc) acc
      = acc ++ ls.filterMap actionOfLine := by
  induction ls generalizing acc with
  | nil => simp
  | cons hd tl ih =>
    simp only [List.foldl_cons, List.filterMap_cons]
    cases h : actionOfLine hd with
    | none => simp [h, ih]
    | some a => simp [h, ih]

/-- C6: `extract_suggested_actions` returns, in document order, at most the
first 5 qualifying lines (trimmed, marker-checked, cleaned, and longer than
10 characters), and on the seven-numbered-lines example returns exactly the
first five items with markers stripped. -/
theorem C6_extract_actions :
    (∀ text : String,
      extract_suggested_actions text =
        ((splitOnChar '\n' text.data).filterMap actionOfLine).take 5 ∧
      (extract_suggested_actions text).length ≤ 5) ∧
    extract_suggested_actions sevenNumberedLines =
      ["First action item here", "Second action item here",
       "Third action item here", "Fourth action item here",
       "Fifth action item here"] := by
  have hchar : ∀ text : String,
      extract_suggested_actions text =
        ((splitOnChar '\n' text.data).filterMap actionOfLine).take 5 := by
    intro text
    unfold extract_suggested_actions
    rw [foldl_actions_eq]
    simp
  refine ⟨fun text => ⟨hchar text, ?_⟩, by decide⟩
  rw [hchar text]
  exact List.length_take_le 5 _

/-- C7 counterexample: with the model loaded but the generation call raising
(no similar strategies stored), the response is the fallback output — the
primary generative path did not succeed — yet the confidence is 0.8, not the
0.6 the claim's success-keyed base prescribes. -/
theorem C7_counterexample :
    (chat_completions engineRaising .ok 0 DB.empty "hello").2.response
      = generate_fallback_strategy "hello" ∧
    (chat_completions engineRaising .ok 0 DB.empty "hello").2.confidence
      = 0.8 ∧
    (0.8 : ℚ) ≠ 0.6 := by
  refine ⟨rfl, ?_, by norm_num⟩
  show min (confidence_raw true false) 0.95 = 0.8
  rw [show confidence_raw true false = 0.8 from by norm_num [confidence_raw]]
  exact min_eq_left (by norm_num)

/-- C7 (amended): the response confidence equals a base of 0.8 if the
generative model is loaded and 0.6 otherwise — keyed to model availability,
not to the primary path succeeding on this request — plus 0.1 when similar
strategies were found, capped at 0.95; consequently it always lies within
`[0, 0.95]`. -/
theorem C7_confidence_bounds (eng : EngineState) (st : StoreOutcome)
    (now : Nat) (db : DB) (p : String) :
    (chat_completions eng st now db p).2.confidence =
      min (confidence_raw eng.generator.isSome
        (!(get_similar_strategies db p).isEmpty)) 0.95 ∧
    0 ≤ (chat_completions eng st now db p).2.confidence ∧
    (chat_completions eng st now db p).2.confidence ≤ 0.95 := by
  refine ⟨rfl, ?_, ?_⟩
  · show (0 : ℚ) ≤ min (confidence_raw eng.generator.isSome
      (!(get_similar_strategies db p).isEmpty)) 0.95
    rw [le_min_iff]
    cases eng.generator.isSome <;>
      cases (!(get_similar_strategies db p).isEmpty) <;>
        norm_num [confidence_raw]
  · exact min_le_right _ _

/-- Re-filtering for a hash after filtering it out yields nothing. -/
theorem filter_eq_of_filter_ne (hp : String) (l : List Row) :
    (l.filter fun r => r.prompt_hash ≠ hp).filter
      (fun r => r.prompt_hash = hp) = [] := by
  induction l with
  | nil => rfl
  | cons a t ih =>
    by_cases hc : a.prompt_hash = hp <;> simp [List.filter_cons, hc, ih]

/-- Filtering for a different hash is unaffected by filtering one hash out. -/
theorem filter_eq_comm_ne (h hp : String) (hne : h ≠ hp) (l : List Row) :
    (l.filter fun r => r.prompt_hash ≠ hp).filter (fun r => r.prompt_hash = h)
      = l.filter fun r => r.prompt_hash = h := by
  rw [List.filter_filter]
  refine List.filter_congr fun a _ => ?_
  by_cases hc : a.prompt_hash = h
  · have hc2 : a.prompt_hash ≠ hp := by rw [hc]; exact hne
    simp [hc, hc2, hne]
  · simp [hc]

/-- One upsert grows the kept rows by exactly the fresh row. -/
theorem dbUpsert_length (db : DB) (p r : String) (t : Nat) :
    ((dbUpsert db p r t).1).rows.length =
      (db.rows.filter fun rr => rr.prompt_hash ≠ get_prompt_hash p).length
        + 1 := by
  unfold dbUpsert
  simp

/-- Characterization of the rows for a hash after one upsert: the upserted
hash holds exactly the fresh row, every other hash is untouched. -/
theorem rowsFor_upsert (db : DB) (p r : String) (t : Nat) (h : String) :
    rowsFor (dbUpsert db p r t).1 h =
      if h = get_prompt_hash p
      then [⟨db.nextId, get_prompt_hash p, p, r, t, 0, 0⟩]
      else rowsFor db h := by
  unfold rowsFor dbUpsert
  by_cases hh : h = get_prompt_hash p
  · subst hh
    simp only [List.filter_append, filter_eq_of_filter_ne, if_pos rfl,
      List.nil_append]
    simp [List.filter_cons]
  · rw [if_neg hh]
    simp only [List.filter_append, filter_eq_comm_ne h _ hh]
    have : get_prompt_hash p ≠ h := fun q => hh q.symm
    simp [List.filter_cons, this]

/-- The two filters for and against a hash partition a row list. -/
theorem filter_partition_len (hp : String) (l : List Row) :
    (l.filter fun r => r.prompt_hash ≠ hp).length +
      (l.filter fun r => r.prompt_hash = hp).length = l.length := by
  induction l with
  | nil => rfl
  | cons a t ih =>
    by_cases hc : a.prompt_hash = hp
    · rw [List.filter_cons, List.filter_cons, if_neg (by simp [hc]),
        if_pos (by simp [hc])]
      simp only [List.length_cons]
      omega
    · rw [List.filter_cons, List.filter_cons, if_pos (by simp [hc]),
        if_neg (by simp [hc])]
      simp only [List.length_cons]
      omega

/-- Folding one more upsert. -/
theorem upsertAll_cons (db : DB) (op : String × String × Nat)
    (ops : List (String × String × Nat)) :
    upsertAll db (op :: ops) =
      upsertAll (dbUpsert db op.1 op.2.1 op.2.2).1 ops := by
  simp [upsertAll]

/-- Any sequence of upserts preserves the at-most-one-row-per-hash
invariant. -/
theorem upsertAll_inv (ops : List (String × String × Nat)) :
    ∀ db : DB, (∀ h, (rowsFor db h).length ≤ 1) →
      ∀ h, (rowsFor (upsertAll db ops) h).length ≤ 1 := by
  induction ops with
  | nil => intro db hdb h; simpa [upsertAll] using hdb h
  | cons op rest ih =>
    intro db hdb h
    rw [upsertAll_cons]
    refine ih _ (fun h2 => ?_) h
    rw [rowsFor_upsert]
    split_ifs
    · simp
    · exact hdb h2

/-- Upserts whose hashes avoid `h` do not change the rows stored for `h`. -/
theorem upsertAll_untouched (ops : List (String × String × Nat)) :
    ∀ (db : DB) (h : String), (∀ op ∈ ops, get_prompt_hash op.1 ≠ h) →
      rowsFor (upsertAll db ops) h = rowsFor db h := by
  induction ops with
  | nil => intro db h _; simp [upsertAll]
  | cons op rest ih =>
    intro db h hops
    rw [upsertAll_cons,
      ih _ h (fun o ho => hops o (List.mem_cons_of_mem _ ho)),
      rowsFor_upsert,
      if_neg (fun q => hops op (List.mem_cons_self _ _) q.symm)]

/-- C1: prompts with identical lowercased text produce identical
fingerprints; re-upserting such a prompt replaces the stored row (same row
count, and the fingerprint's single row now holds the new response); any
sequence of upserts keeps at most one stored row per fingerprint; and the
row for a fingerprint holds the response of the last upsert written to it. -/
theorem C1_fingerprint_upsert_last_write_wins (p1 p2 : String)
    (hlow : pyLower p1 = pyLower p2) :
    get_prompt_hash p1 = get_prompt_hash p2 ∧
    (∀ (db : DB) (r1 r2 : String) (t1 t2 : Nat),
      ((dbUpsert (dbUpsert db p1 r1 t1).1 p2 r2 t2).1).rows.length =
        ((dbUpsert db p1 r1 t1).1).rows.length ∧
      (rowsFor (dbUpsert (dbUpsert db p1 r1 t1).1 p2 r2 t2).1
          (get_prompt_hash p1)).map Row.response = [r2]) ∧
    (∀ (db : DB) (ops : List (String × String × Nat)),
      (∀ h, (rowsFor db h).length ≤ 1) →
      ∀ h, (rowsFor (upsertAll db ops) h).length ≤ 1) ∧
    (∀ (db : DB) (front tail : List (String × String × Nat)) (r : String)
        (t : Nat),
      (∀ op ∈ tail, get_prompt_hash op.1 ≠ get_prompt_hash p2) →
      (rowsFor (upsertAll db (front ++ (p2, r, t) :: tail))
          (get_prompt_hash p2)).map Row.response = [r]) := by
  have hh : get_prompt_hash p1 = get_prompt_hash p2 := by
    unfold get_prompt_hash
    rw [hlow]
  refine ⟨hh, ?_, fun db ops hinv h => upsertAll_inv ops db hinv h, ?_⟩
  · intro db r1 r2 t1 t2
    constructor
    · have h1 : rowsFor (dbUpsert db p1 r1 t1).1 (get_prompt_hash p2) =
          [⟨db.nextId, get_prompt_hash p1, p1, r1, t1, 0, 0⟩] := by
        rw [← hh, rowsFor_upsert, if_pos rfl]
      have hpart := filter_partition_len (get_prompt_hash p2)
        ((dbUpsert db p1 r1 t1).1).rows
      have hlen1 : (((dbUpsert db p1 r1 t1).1).rows.filter
          (fun (r : Row) => r.prompt_hash = get_prompt_hash p2)).length = 1 := by
        have heq : ((dbUpsert db p1 r1 t1).1).rows.filter
            (fun (r : Row) => r.prompt_hash = get_prompt_hash p2) =
            rowsFor (dbUpsert db p1 r1 t1).1 (get_prompt_hash p2) := rfl
        rw [heq, h1]
        rfl
      rw [dbUpsert_length]
      omega
    · rw [hh, rowsFor_upsert, if_pos rfl]
      rfl
  · intro db front tail r t htail
    have hsplit : upsertAll db (front ++ (p2, r, t) :: tail) =
        upsertAll (dbUpsert (upsertAll db front) p2 r t).1 tail := by
      simp [upsertAll, List.foldl_append]
    rw [hsplit, upsertAll_untouched tail _ _ htail, rowsFor_upsert,
      if_pos rfl]
    rfl

/-- Witness for C1: differently-cased copies of one prompt share a
fingerprint, and re-upserting overwrites the row's response. -/
theorem C1_witness :
    pyLower "Earn Cash" = pyLower "earn cash" ∧
    get_prompt_hash "Earn Cash" = get_prompt_hash "earn cash" ∧
    (rowsFor (dbUpsert (dbUpsert DB.empty "Earn Cash" "RespA" 0).1
        "earn cash" "RespB" 1).1
      (get_prompt_hash "Earn Cash")).map Row.response = ["RespB"] := by
  have h := C1_fingerprint_upsert_last_write_wins "Earn Cash" "earn cash"
    (by decide)
  exact ⟨by decide, h.1, (h.2.1 DB.empty "RespA" "RespB" 0 1).2⟩

/-- Pointwise-equal acceptors accept the same suffixes. -/
theorem anySuffix_congr (f g : List Char → Bool) (hfg : ∀ t, f t = g t) :
    ∀ s, anySuffix f s = anySuffix g s := by
  intro s
  induction s with
  | nil => simp [anySuffix, hfg]
  | cons c rest ih => simp [anySuffix, hfg, ih]

/-- A trailing-percent pattern made of ordinary characters matches exactly
the texts it prefixes. -/
theorem likeMatch_append_pct (w : List Char)
    (hw : ∀ c ∈ w, c ≠ '%' ∧ c ≠ '_') :
    ∀ s, likeMatch (w ++ ['%']) s = isPrefixList w s := by
  induction w with
  | nil =>
    intro s
    have hall : ∀ s2, anySuffix (fun x : List Char => x.isEmpty) s2 = true := by
      intro s2
      induction s2 with
      | nil => rfl
      | cons c r ih2 => simp [anySuffix, ih2]
    simp [likeMatch, hall, isPrefixList]
  | cons c w2 ih =>
    intro s
    have hc := hw c (List.mem_cons_self ..)
    have hw2 : ∀ d ∈ w2, d ≠ '%' ∧ d ≠ '_' := fun d hd =>
      hw d (List.mem_cons_of_mem _ hd)
    cases s with
    | nil => simp [likeMatch, isPrefixList, hc.1, hc.2]
    | cons d s2 => simp [likeMatch, isPrefixList, hc.1, hc.2, ih hw2 s2]

/-- Scanning all suffixes for a prefix occurrence is the substring test. -/
theorem anySuffix_isPrefix_eq_isSub (w : List Char) :
    ∀ s, anySuffix (isPrefixList w) s = isSubList w s := by
  intro s
  induction s with
  | nil => rfl
  | cons c rest ih => simp [anySuffix, isSubList, ih]

/-- For a token free of `LIKE` wildcards, the interpolated condition is the
case-folded substring test. -/
theorem likeCondition_eq_isSub (t : String) (r : Row)
    (ht : ∀ c ∈ t.data, c ≠ '%' ∧ c ≠ '_') :
    likeCondition t r = isSubList t.data (pyLower r.prompt).data := by
  unfold likeCondition
  have hstep : likeMatch ('%' :: (t.data ++ ['%'])) (pyLower r.prompt).data
      = anySuffix (likeMatch (t.data ++ ['%'])) (pyLower r.prompt).data := by
    simp [likeMatch]
  rw [hstep, anySuffix_congr _ _ (likeMatch_append_pct t.data ht),
    anySuffix_isPrefix_eq_isSub]

/-- Unfolding of the similarity lookup into its two branches. -/
theorem gss_eq (db : DB) (p : String) :
    get_similar_strategies db p =
      if ((pySplit (pyLower p)).take 5).isEmpty
          || ((pySplit (pyLower p)).take 5).any
            (fun t => t.data.contains sqlQuote)
      then []
      else ((db.rows.insertionSort byRecency).filter
          (fun r => ((pySplit (pyLower p)).take 5).any
            fun t => likeCondition t r)).take 5 := rfl

/-- C8 counterexample: on the prompt `"a%b"` the lookup returns a stored row
whose prompt `"a x b"` does not contain the token `"a%b"` as a substring —
the interpolated token acts as a `LIKE` pattern, not as a literal. -/
theorem C8_counterexample :
    get_similar_strategies wildcardDB "a%b" = [wildcardRow] ∧
    isSubList "a%b".data (pyLower wildcardRow.prompt).data = false := by
  constructor <;> decide

/-- C8 (amended): the similarity lookup returns at most 5 stored exchanges,
most-recent-first; when every queried token is free of `LIKE` wildcards and
quote characters, each returned row's stored prompt contains at least one of
the first 5 lowercased whitespace tokens of the query as a substring; and an
all-whitespace prompt yields the empty list without raising. -/
theorem C8_similar_lookup (db : DB) (p : String) :
    (pySplit (pyLower p) = [] → get_similar_strategies db p = []) ∧
    (get_similar_strategies db p).length ≤ 5 ∧
    List.Sorted byRecency (get_similar_strategies db p) ∧
    (∀ r ∈ get_similar_strategies db p, r ∈ db.rows) ∧
    ((∀ t ∈ (pySplit (pyLower p)).take 5, ∀ c ∈ t.data,
        c ≠ '%' ∧ c ≠ '_' ∧ c ≠ sqlQuote) →
      ∀ r ∈ get_similar_strategies db p,
        ∃ t ∈ (pySplit (pyLower p)).take 5,
          isSubList t.data (pyLower r.prompt).data = true) := by
  rw [gss_eq]
  split_ifs with hif
  · exact ⟨fun _ => rfl, by simp, by simp, by simp,
      fun _ r hr => absurd hr (by simp)⟩
  · refine ⟨?_, ?_, ?_, ?_, ?_⟩
    · intro hsplit
      exact absurd (by simp [hsplit]) hif
    · exact List.length_take_le 5 _
    · have hsorted : List.Sorted byRecency
          (db.rows.insertionSort byRecency) :=
        List.sorted_insertionSort byRecency db.rows
      exact List.Pairwise.sublist
        ((List.take_sublist 5 _).trans (List.filter_sublist _)) hsorted
    · intro r hr
      have h1 := List.mem_of_mem_take hr
      have h2 := (List.mem_filter.mp h1).1
      exact (List.perm_insertionSort byRecency db.rows).subset h2
    · intro hclean r hr
      have h1 := List.mem_of_mem_take hr
      have h2 := (List.mem_filter.mp h1).2
      obtain ⟨t, ht, hcond⟩ := List.any_eq_true.mp h2
      refine ⟨t, ht, ?_⟩
      rw [← likeCondition_eq_isSub t r
        (fun c hc => ⟨(hclean t ht c hc).1, (hclean t ht c hc).2.1⟩)]
      exact hcond

/-- Witness for C8: the all-whitespace prompt applied on the sample store,
plus the length bound at a concrete query. -/
theorem C8_witness :
    get_similar_strategies sampleDB "   " = [] ∧
    (get_similar_strategies sampleDB "stored text").length ≤ 5 :=
  ⟨(C8_similar_lookup sampleDB "   ").1 (by decide),
   (C8_similar_lookup sampleDB "stored text").2.1⟩

end PWE
